import Mathlib

/-!
Shallow embedding of the booking-and-payment backend (`server.js` together
with the mongoose models `Service`, `Slot`, `Reservation`).

The document database is modelled as association lists from document id
(a mongo ObjectId, modelled as `String`) to document.  `Date` values are
modelled as milliseconds since the epoch (`Nat`), matching the millisecond
resolution of a JavaScript `Date`.  External collaborators (Stripe, the
Google calendar API, SMTP) are modelled as oracle functions returning
`Except`: `Except.error` models the promise rejecting.  A JavaScript
`TypeError` raised by dereferencing `null` inside the webhook handler —
which is not wrapped in any `try`/`catch`, so no response is ever sent —
is modelled by the handler returning `none` in place of a response.
-/

namespace BookingServer

/-- The `status` enum of `SlotSchema` (`models/Slot.js`): `['free','booked']`. -/
inductive SlotStatus
  | free
  | booked
deriving DecidableEq, Repr

/-- The `status` enum of `ReservationSchema` (`models/Reservation.js`):
`['pending','paid','cancelled']`. -/
inductive ResStatus
  | pending
  | paid
  | cancelled
deriving DecidableEq, Repr

/-- `ServiceSchema` (`models/Service.js`): title, description, duration in
minutes, price, mentor email. -/
structure Service where
  title : String
  description : String
  duration : Nat
  price : Nat
  mentorEmail : String
deriving DecidableEq, Repr

/-- `SlotSchema` (`models/Slot.js`): optional service reference, required
start `Date` (ms since epoch), optional end `Date`, status defaulting to
`free`. -/
structure Slot where
  serviceId : Option String
  start : Nat
  «end» : Option Nat
  status : SlotStatus
deriving DecidableEq, Repr

/-- `ReservationSchema` (`models/Reservation.js`). -/
structure Reservation where
  serviceId : String
  slotId : String
  meetingLink : Option String
  firstName : String
  lastName : String
  phone : String
  customerEmail : String
  status : ResStatus
  stripeSessionId : Option String
  createdAt : Nat
deriving DecidableEq, Repr

/-- The three mongo collections. -/
structure Store where
  services : List (String × Service)
  slots : List (String × Slot)
  reservations : List (String × Reservation)
deriving DecidableEq, Repr

/-- `Model.findById(id)`: the matching document, or null (`none`). -/
def findById {α : Type} (coll : List (String × α)) (id : String) : Option α :=
  (coll.find? (fun p => p.1 == id)).map Prod.snd

/-- `Model.findByIdAndUpdate(id, patch)` on the collection: the matching
document is replaced by `f` applied to it; with no match the collection is
unchanged (mongoose returns null and updates nothing). -/
def updateById {α : Type} (coll : List (String × α)) (id : String) (f : α → α) :
    List (String × α) :=
  coll.map (fun p => if p.1 == id then (p.1, f p.2) else p)

/-- `Model.findByIdAndDelete(id)` on the collection. -/
def deleteById {α : Type} (coll : List (String × α)) (id : String) :
    List (String × α) :=
  coll.filter (fun p => !(p.1 == id))

/-- Response bodies the handlers produce (`res.send` text or `res.json`
payload shapes). -/
inductive Body
  | text (s : String)
  | jsonError (msg : String)
  | jsonMessage (msg : String)
  | jsonReceived
  | jsonCheckout (url : String)
  | jsonSlots (slots : List (String × Slot))
  | jsonSlot (s : Option Slot)
  | jsonReservations (rs : List (String × Reservation))
  | jsonStatusPaid
deriving DecidableEq, Repr

/-- An HTTP response: status code and body. -/
structure HttpResp where
  status : Nat
  body : Body
deriving DecidableEq, Repr

/-- `session.metadata` plus `session.id` of the Stripe checkout session
carried by a `checkout.session.completed` event (`event.data.object`). -/
structure StripeSession where
  id : String
  reservationId : String
  slotId : String
deriving DecidableEq, Repr

/-- A Stripe event as produced by `stripe.webhooks.constructEvent`. -/
structure StripeEvent where
  id : String
  type : String
  session : StripeSession
deriving DecidableEq, Repr

/-- A webhook request, after the signature check performed by
`stripe.webhooks.constructEvent`: either the signature verifies against the
configured signing secret and an event is produced (`sigValid = true`), or
the call throws with message `sigErrMsg`. -/
structure WebhookReq where
  sigValid : Bool
  sigErrMsg : String
  event : StripeEvent
deriving DecidableEq, Repr

/-- The data interpolated into the confirmation email (`mailOptions`):
recipient, first name, service title, the slot start used for the
formatted date string, and the meeting link. -/
structure Mail where
  toAddr : String
  firstName : String
  serviceTitle : String
  slotStart : Nat
  meetingLink : Option String
deriving DecidableEq, Repr

/-- The request `POST /api/reservations` sends to
`stripe.checkout.sessions.create`: customer email, `unit_amount`
(`Math.round(service.price*100)`), product name, and the metadata linking
back to the reservation and slot. -/
structure CheckoutReq where
  customerEmail : String
  unitAmount : Nat
  productName : String
  metaReservationId : String
  metaSlotId : String
deriving DecidableEq, Repr

/-- The external collaborators, as oracles.  `calendarInsert` is
`calendar.events.insert` (start ms, end ms, summary, attendee emails,
returning the `hangoutLink`); `sendMail` is `mailTransporter.sendMail`;
`createCheckoutSession` is `stripe.checkout.sessions.create` (returning
`session.url`); `retrieveSession` is `stripe.checkout.sessions.retrieve`
(returning `session.payment_status`).  `Except.error` models the promise
rejecting. -/
structure Outside where
  calendarInsert : Nat → Nat → String → List String → Except String String
  sendMail : Mail → Except String Unit
  createCheckoutSession : CheckoutReq → Except String String
  retrieveSession : String → Except String String

/-- `createGoogleMeet(startDate, durationMinutes, summary, attendees)`:
computes the end date as `startDate + durationMinutes * 60000` ms and
inserts the calendar event, returning `resp.data.hangoutLink`. -/
def createGoogleMeet (out : Outside) (startMs durationMinutes : Nat)
    (summary : String) (attendees : List String) : Except String String :=
  out.calendarInsert startMs (startMs + durationMinutes * 60000) summary attendees

/-- Observable actions of the handlers, recorded in order of occurrence. -/
inductive Action
  | updateReservationPaid (rid sessionId : String)
  | updateSlotBooked (sid : String)
  | fetchSlot (sid : String)
  | fetchService (svcId : String)
  | createMeet (startMs durationMinutes : Nat) (summary : String) (attendees : List String)
  | persistMeetingLink (rid link : String)
  | fetchFullReservation (rid : String)
  | sendConfirmationEmail (toAddr : String)
  | bookSlot (sid : String)
  | createRes (rid : String)
  | createCheckout (req : CheckoutReq)
deriving DecidableEq, Repr

/-- Result of the webhook handler: the final store, the response sent
(`none` when an uncaught exception aborts the async handler before any
response — expressjs sends nothing in that case), and the trace of
observable actions. -/
structure WebhookResult where
  store : Store
  resp : Option HttpResp
  trace : List Action
deriving Repr

/-- `POST /api/stripe/webhook` (`server.js`).  Verifies the signature
(400 `text` on failure); on a `checkout.session.completed` event updates
the reservation to paid recording the session id, books the slot, fetches
slot and service, creates the Google Meet (NOT wrapped in `try`/`catch`:
a failure there, or any null dereference, aborts the handler with no
response), persists the meeting link, refetches the populated reservation
and sends the confirmation email (whose failure is caught and only
logged); finally replies `{received: true}`. -/
def handleStripeWebhook (out : Outside) (req : WebhookReq) (st : Store) :
    WebhookResult :=
  if !req.sigValid then
    { store := st
      resp := some ⟨400, Body.text ("Webhook Error: " ++ req.sigErrMsg)⟩
      trace := [] }
  else if req.event.type == "checkout.session.completed" then
    let session := req.event.session
    let rid := session.reservationId
    let sid := session.slotId
    -- Reservation.findByIdAndUpdate(reservationId, {status:'paid', stripeSessionId}, {new:true})
    let st1 : Store :=
      { st with reservations := (updateById st.reservations rid
          (fun r => { r with status := ResStatus.paid, stripeSessionId := some session.id })) }
    let reservation? := findById st1.reservations rid
    -- Slot.findByIdAndUpdate(slotId, {status:'booked'})
    let st2 : Store :=
      { st1 with slots := (updateById st1.slots sid
          (fun s => { s with status := SlotStatus.booked })) }
    -- const slot = await Slot.findById(slotId)
    let slot? := findById st2.slots sid
    let tr1 := [Action.updateReservationPaid rid session.id, Action.updateSlotBooked sid,
      Action.fetchSlot sid]
    match reservation? with
    | none =>
      -- reservation is null: `reservation.serviceId` raises a TypeError
      { store := st2, resp := none, trace := tr1 }
    | some reservation =>
      -- const service = await Service.findById(reservation.serviceId)
      let service? := findById st2.services reservation.serviceId
      let tr2 := tr1 ++ [Action.fetchService reservation.serviceId]
      match slot?, service? with
      | none, _ =>
        -- slot is null: `slot.start` raises a TypeError
        { store := st2, resp := none, trace := tr2 }
      | some _, none =>
        -- service is null: `service.duration` raises a TypeError
        { store := st2, resp := none, trace := tr2 }
      | some slot, some service =>
        let summary := "Reserva: " ++ service.title
        let attendees := [reservation.customerEmail, service.mentorEmail]
        let tr3 := tr2 ++ [Action.createMeet slot.start service.duration summary attendees]
        match createGoogleMeet out slot.start service.duration summary attendees with
        | Except.error _ =>
          -- not caught by any try/catch: the handler aborts, no response
          { store := st2, resp := none, trace := tr3 }
        | Except.ok meetLink =>
          -- Reservation.findByIdAndUpdate(reservationId, {meetingLink})
          let st3 : Store :=
            { st2 with reservations := (updateById st2.reservations rid
                (fun r => { r with meetingLink := some meetLink })) }
          -- const fullRes = await Reservation.findById(reservationId).populate(...)
          let fullRes? := findById st3.reservations rid
          let tr4 := tr3 ++ [Action.persistMeetingLink rid meetLink,
            Action.fetchFullReservation rid]
          match fullRes? with
          | none => { store := st3, resp := none, trace := tr4 }
          | some fullRes =>
            -- populate: fullRes.serviceId.title and fullRes.slotId.start
            match findById st3.services fullRes.serviceId,
                findById st3.slots fullRes.slotId with
            | some psvc, some pslot =>
              let mail : Mail :=
                { toAddr := fullRes.customerEmail, firstName := fullRes.firstName
                  serviceTitle := psvc.title, slotStart := pslot.start
                  meetingLink := fullRes.meetingLink }
              -- try { await mailTransporter.sendMail(...) } catch { log only }
              let _mailResult := out.sendMail mail
              { store := st3, resp := some ⟨200, Body.jsonReceived⟩
                trace := tr4 ++ [Action.sendConfirmationEmail fullRes.customerEmail] }
            | _, _ =>
              -- a populated reference is null: TypeError building the email
              { store := st3, resp := none, trace := tr4 }
  else
    { store := st, resp := some ⟨200, Body.jsonReceived⟩, trace := [] }

/-- The body of `POST /api/reservations`: the six destructured fields,
`none` when absent from the JSON body. -/
structure ReservationReq where
  serviceId : Option String
  slotId : Option String
  customerEmail : Option String
  firstName : Option String
  lastName : Option String
  phone : Option String
deriving DecidableEq, Repr

/-- JavaScript truthiness of a destructured string field: `undefined`,
`null` and the empty string are falsy. -/
def strPresent : Option String → Bool
  | none => false
  | some s => !(s == "")

/-- Result of `POST /api/reservations`: final store, response, trace. -/
structure ResResult where
  store : Store
  resp : HttpResp
  trace : List Action
deriving Repr

/-- `POST /api/reservations` (`server.js`).  Validates the six required
fields (400 on any falsy one); looks up service and slot and requires the
slot to be `free` (otherwise 400); books the slot, creates a pending
reservation (mongo generates its id, here the parameter `newId`;
`createdAt` defaults to `Date.now`, here `now`), then creates the Stripe
checkout session with metadata `{reservationId, slotId}` and replies with
its URL; the surrounding try/catch turns an external failure into a 500. -/
def handleCreateReservation (out : Outside) (req : ReservationReq)
    (newId : String) (now : Nat) (st : Store) : ResResult :=
  if !(strPresent req.serviceId && strPresent req.slotId && strPresent req.customerEmail
      && strPresent req.firstName && strPresent req.lastName && strPresent req.phone) then
    { store := st, resp := ⟨400, Body.jsonError "Faltan campos obligatorios."⟩, trace := [] }
  else
    let serviceId := req.serviceId.getD ""
    let slotId := req.slotId.getD ""
    match findById st.services serviceId, findById st.slots slotId with
    | some service, some slot =>
      if slot.status != SlotStatus.free then
        { store := st, resp := ⟨400, Body.jsonError "Servicio o slot no disponible."⟩
          trace := [] }
      else
        -- Slot.findByIdAndUpdate(slotId, {status:'booked'})
        let st1 : Store :=
          { st with slots := (updateById st.slots slotId
              (fun s => { s with status := SlotStatus.booked })) }
        -- Reservation.create({..., status:'pending'})
        let reservation : Reservation :=
          { serviceId := serviceId, slotId := slotId, meetingLink := none
            firstName := req.firstName.getD "", lastName := req.lastName.getD ""
            phone := req.phone.getD "", customerEmail := req.customerEmail.getD ""
            status := ResStatus.pending, stripeSessionId := none, createdAt := now }
        let st2 : Store :=
          { st1 with reservations := st1.reservations ++ [(newId, reservation)] }
        let creq : CheckoutReq :=
          { customerEmail := req.customerEmail.getD ""
            unitAmount := service.price * 100, productName := service.title
            metaReservationId := newId, metaSlotId := slotId }
        let tr := [Action.bookSlot slotId, Action.createRes newId, Action.createCheckout creq]
        match out.createCheckoutSession creq with
        | Except.ok url =>
          { store := st2, resp := ⟨200, Body.jsonCheckout url⟩, trace := tr }
        | Except.error _ =>
          { store := st2, resp := ⟨500, Body.jsonError "Error interno."⟩, trace := tr }
    | _, _ =>
      { store := st, resp := ⟨400, Body.jsonError "Servicio o slot no disponible."⟩
        trace := [] }

/-- Local midnight of day `d`, in ms: `new Date(date + 'T00:00:00')`. -/
def dayStartMs (d : Nat) : Nat := d * 86400000

/-- `new Date(date + 'T23:59:59')`: the last whole second — not the last
millisecond — of day `d`. -/
def dayEndMs (d : Nat) : Nat := d * 86400000 + 86399000

/-- A start time falls on day `d` (millisecond resolution). -/
def onDate (d : Nat) (startMs : Nat) : Prop :=
  dayStartMs d ≤ startMs ∧ startMs < dayStartMs (d + 1)

instance (d startMs : Nat) : Decidable (onDate d startMs) :=
  inferInstanceAs (Decidable (_ ∧ _))

/-- The ascending-start order used by `.sort('start')`. -/
def slotStartLe (a b : String × Slot) : Prop := a.2.start ≤ b.2.start

instance : DecidableRel slotStartLe := fun a b => Nat.decLe a.2.start b.2.start

instance : IsTotal (String × Slot) slotStartLe :=
  ⟨fun a b => Nat.le_total a.2.start b.2.start⟩

instance : IsTrans (String × Slot) slotStartLe :=
  ⟨fun _ _ _ hab hbc => Nat.le_trans hab hbc⟩

/-- `GET /api/slots` (`server.js`).  Requires a `date` query parameter
(modelled as the day index `d` of a well-formed date string, `none` when
absent); returns the slots with `start` between `T00:00:00` and
`T23:59:59` of that day and status `free`, sorted ascending by start. -/
def handleGetSlots (dateParam : Option Nat) (st : Store) : HttpResp :=
  match dateParam with
  | none => ⟨400, Body.jsonError "Falta parámetro date"⟩
  | some d =>
    let matching := st.slots.filter (fun p =>
      decide (dayStartMs d ≤ p.2.start) && decide (p.2.start ≤ dayEndMs d)
        && (p.2.status == SlotStatus.free))
    ⟨200, Body.jsonSlots (matching.insertionSort slotStartLe)⟩

/-- The body of `POST /api/admin/slots` and `PUT /api/admin/slots/:slotId`:
a partial slot document; `none` marks a field absent from the JSON body. -/
structure SlotBody where
  start : Option Nat
  serviceId : Option String
  «end» : Option Nat
  status : Option SlotStatus
deriving DecidableEq, Repr

/-- `POST /api/admin/slots` (`server.js`).  Destructures only `start`
(400 when falsy) and creates `{ start, status: 'free' }`: any `status`,
`serviceId` or `end` in the body is ignored.  `dbFail` models the awaited
`Slot.create` throwing, which the catch turns into a 400. -/
def handleAdminCreateSlot (dbFail : Bool) (body : SlotBody) (newId : String)
    (st : Store) : Store × HttpResp :=
  match body.start with
  | none => (st, ⟨400, Body.jsonError "Falta start."⟩)
  | some startMs =>
    if dbFail then (st, ⟨400, Body.jsonError "Invalid slot data."⟩)
    else
      let slot : Slot :=
        { serviceId := none, start := startMs, «end» := none, status := SlotStatus.free }
      ({ st with slots := st.slots ++ [(newId, slot)] }, ⟨201, Body.jsonSlot (some slot)⟩)

/-- Applying `req.body` as a mongoose update: fields present in the body
overwrite the document's. -/
def applySlotUpdate (body : SlotBody) (s : Slot) : Slot :=
  { serviceId := (match body.serviceId with | some v => some v | none => s.serviceId)
    start := body.start.getD s.start
    «end» := (match body.«end» with | some v => some v | none => s.«end»)
    status := body.status.getD s.status }

/-- `PUT /api/admin/slots/:slotId` (`server.js`).  `findByIdAndUpdate`
with the raw body; the catch turns any thrown error into a 400. -/
def handleAdminUpdateSlot (dbFail : Bool) (slotId : String) (body : SlotBody)
    (st : Store) : Store × HttpResp :=
  if dbFail then (st, ⟨400, Body.jsonError "Could not update slot."⟩)
  else
    let st1 : Store := { st with slots := updateById st.slots slotId (applySlotUpdate body) }
    (st1, ⟨200, Body.jsonSlot (findById st1.slots slotId)⟩)

/-- `DELETE /api/admin/slots/:slotId` (`server.js`); catch gives 400. -/
def handleAdminDeleteSlot (dbFail : Bool) (slotId : String) (st : Store) :
    Store × HttpResp :=
  if dbFail then (st, ⟨400, Body.jsonError "Could not delete slot."⟩)
  else ({ st with slots := deleteById st.slots slotId }, ⟨200, Body.jsonMessage "Slot deleted."⟩)

/-- `GET /api/admin/slots` (`server.js`); catch gives 500. -/
def handleAdminGetSlots (dbFail : Bool) (st : Store) : HttpResp :=
  if dbFail then ⟨500, Body.jsonError "Error fetching slots."⟩
  else ⟨200, Body.jsonSlots st.slots⟩

/-- `GET /api/admin/reservations` (`server.js`); catch gives 500. -/
def handleAdminGetReservations (dbFail : Bool) (st : Store) : HttpResp :=
  if dbFail then ⟨500, Body.jsonError "Error fetching reservations."⟩
  else ⟨200, Body.jsonReservations st.reservations⟩

/-- `DELETE /api/admin/reservation/:reservationId` (`server.js`); catch
gives 400. -/
def handleAdminDeleteReservation (dbFail : Bool) (rid : String) (st : Store) :
    Store × HttpResp :=
  if dbFail then (st, ⟨400, Body.jsonError "No se pudo eliminar la reserva."⟩)
  else
    ({ st with reservations := deleteById st.reservations rid },
      ⟨200, Body.jsonMessage "Reserva eliminada."⟩)

/-- `POST /api/stripe/verify` (`server.js`).  Requires `sessionId`
(falsy → 400), retrieves the checkout session (a throw → 500 via the
catch), and requires `payment_status === 'paid'` (otherwise 400). -/
def handleStripeVerify (out : Outside) (sessionId : Option String) : HttpResp :=
  if !(strPresent sessionId) then ⟨400, Body.jsonError "Falta sessionId."⟩
  else
    match out.retrieveSession (sessionId.getD "") with
    | Except.error _ => ⟨500, Body.jsonError "Error interno."⟩
    | Except.ok paymentStatus =>
      if paymentStatus != "paid" then ⟨400, Body.jsonError "Pago no completado."⟩
      else ⟨200, Body.jsonStatusPaid⟩

/-! ### Concrete fixtures used by witnesses and counterexamples -/

/-- A concrete service. -/
def wService : Service :=
  { title := "Mentoria", description := "Sesion de mentoria", duration := 60
    price := 50, mentorEmail := "mentor@example.com" }

/-- A concrete free slot. -/
def wSlotFree : Slot :=
  { serviceId := none, start := 1700000000000, «end» := none, status := SlotStatus.free }

/-- A concrete pending reservation referencing `svc1` and `slot1`. -/
def wRes : Reservation :=
  { serviceId := "svc1", slotId := "slot1", meetingLink := none, firstName := "Ana"
    lastName := "Diaz", phone := "099123456", customerEmail := "ana@example.com"
    status := ResStatus.pending, stripeSessionId := none, createdAt := 0 }

/-- A concrete store holding one service, one free slot and one pending
reservation. -/
def wStore : Store :=
  { services := [("svc1", wService)], slots := [("slot1", wSlotFree)]
    reservations := [("r1", wRes)] }

/-- Oracles in which every external call succeeds. -/
def okOut : Outside :=
  { calendarInsert := fun _ _ _ _ => Except.ok "meet-link"
    sendMail := fun _ => Except.ok ()
    createCheckoutSession := fun _ => Except.ok "checkout-url"
    retrieveSession := fun _ => Except.ok "paid" }

/-- A concrete completed-checkout event for reservation `r1`, slot `slot1`. -/
def wEvent : StripeEvent :=
  { id := "evt1", type := "checkout.session.completed"
    session := { id := "sess1", reservationId := "r1", slotId := "slot1" } }

/-- A webhook request carrying `wEvent` with a valid signature. -/
def wReqOk : WebhookReq := { sigValid := true, sigErrMsg := "", event := wEvent }


/-- A signature-valid webhook request carrying an event of another type. -/
def wReqOtherType : WebhookReq :=
  { sigValid := true, sigErrMsg := ""
    event := { id := "evt2", type := "payment_intent.succeeded"
               session := { id := "sess1", reservationId := "r1", slotId := "slot1" } } }


/-- The post-state and ordered action trace C1 asserts for a webhook
carrying a verified `checkout.session.completed` event: reservation paid
with the session id and the meeting link recorded, slot booked, reply
`{received: true}`, and the handler's observable steps in order. -/
def c1Post (out : Outside) (req : WebhookReq) (st : Store) (r : Reservation)
    (s : Slot) (svc : Service) (link : String) : Prop :=
  findById (handleStripeWebhook out req st).store.reservations
      req.event.session.reservationId =
    some { r with
           status := ResStatus.paid
           stripeSessionId := some req.event.session.id
           meetingLink := some link } ∧
  findById (handleStripeWebhook out req st).store.slots req.event.session.slotId =
    some { s with status := SlotStatus.booked } ∧
  (handleStripeWebhook out req st).resp = some ⟨200, Body.jsonReceived⟩ ∧
  (handleStripeWebhook out req st).trace =
    [Action.updateReservationPaid req.event.session.reservationId req.event.session.id,
     Action.updateSlotBooked req.event.session.slotId,
     Action.fetchSlot req.event.session.slotId,
     Action.fetchService r.serviceId,
     Action.createMeet s.start svc.duration ("Reserva: " ++ svc.title)
       [r.customerEmail, svc.mentorEmail],
     Action.persistMeetingLink req.event.session.reservationId link,
     Action.fetchFullReservation req.event.session.reservationId,
     Action.sendConfirmationEmail r.customerEmail]

/-- Oracles in which the calendar call fails and everything else works. -/
def meetFailOut : Outside :=
  { calendarInsert := fun _ _ _ _ => Except.error "calendar down"
    sendMail := fun _ => Except.ok ()
    createCheckoutSession := fun _ => Except.ok "checkout-url"
    retrieveSession := fun _ => Except.ok "paid" }

/-- Oracles in which the SMTP send fails and everything else works. -/
def mailFailOut : Outside :=
  { calendarInsert := fun _ _ _ _ => Except.ok "meet-link"
    sendMail := fun _ => Except.error "smtp down"
    createCheckoutSession := fun _ => Except.ok "checkout-url"
    retrieveSession := fun _ => Except.ok "paid" }

/-- The amended C6 property.  First conjunct: with the calendar call
succeeding, the handler completes normally and replies `{received: true}`
with the reservation left paid, WHATEVER `sendMail` returns — an email
failure is caught and only logged.  Second conjunct: when the calendar
call fails, the rejection is not caught: the handler aborts with no
response at all, yet the reservation stays paid and the slot booked — no
rollback. -/
def c6Post (out : Outside) (req : WebhookReq) (st : Store) (r : Reservation)
    (s : Slot) (svc : Service) : Prop :=
  (∀ link, out.calendarInsert s.start (s.start + svc.duration * 60000)
      ("Reserva: " ++ svc.title) [r.customerEmail, svc.mentorEmail] = Except.ok link →
    (handleStripeWebhook out req st).resp = some ⟨200, Body.jsonReceived⟩ ∧
    ((findById (handleStripeWebhook out req st).store.reservations
        req.event.session.reservationId).map Reservation.status) = some ResStatus.paid) ∧
  (∀ e, out.calendarInsert s.start (s.start + svc.duration * 60000)
      ("Reserva: " ++ svc.title) [r.customerEmail, svc.mentorEmail] = Except.error e →
    (handleStripeWebhook out req st).resp = none ∧
    ((findById (handleStripeWebhook out req st).store.reservations
        req.event.session.reservationId).map Reservation.status) = some ResStatus.paid ∧
    ((findById (handleStripeWebhook out req st).store.slots
        req.event.session.slotId).map Slot.status) = some SlotStatus.booked)

/-- The post-state and ordered action trace C3 asserts for a valid
reservation request: slot booked first, then a pending reservation created
referencing service and slot, then a checkout session requested whose
metadata carries the new reservation id and the slot id, and the session's
URL returned. -/
def c3Post (out : Outside) (serviceId slotId email firstName lastName phone : String)
    (newId : String) (now : Nat) (st : Store) (service : Service) (slot : Slot)
    (url : String) : Prop :=
  let req : ReservationReq :=
    ⟨some serviceId, some slotId, some email, some firstName, some lastName, some phone⟩
  let result := handleCreateReservation out req newId now st
  findById result.store.slots slotId = some { slot with status := SlotStatus.booked } ∧
  findById result.store.reservations newId =
    some { serviceId := serviceId, slotId := slotId, meetingLink := none
           firstName := firstName, lastName := lastName, phone := phone
           customerEmail := email, status := ResStatus.pending
           stripeSessionId := none, createdAt := now } ∧
  result.resp = ⟨200, Body.jsonCheckout url⟩ ∧
  result.trace =
    [Action.bookSlot slotId, Action.createRes newId,
     Action.createCheckout
       { customerEmail := email, unitAmount := service.price * 100
         productName := service.title, metaReservationId := newId
         metaSlotId := slotId }]

/-- A store holding a single free slot starting in the last millisecond
(23:59:59.999) of day 0. -/
def c5Store : Store :=
  { services := []
    slots := [("s1", { serviceId := none, start := 86399999, «end» := none
                       status := SlotStatus.free })]
    reservations := [] }

/-- `wStore` with the slot already booked. -/
def wStoreBooked : Store :=
  { services := [("svc1", wService)]
    slots := [("slot1", { serviceId := none, start := 1700000000000, «end» := none
                          status := SlotStatus.booked })]
    reservations := [("r1", wRes)] }

/-- The amended C8 property over the modelled endpoints.  Validation
failures are answered 400 with a message; an unexpected failure (a thrown
awaited call, `dbFail`/oracle error) is answered 500 by the listing
handlers, the verify handler and the reservation-creation handler, but
400 by the admin slot create/update/delete and admin reservation delete
handlers. -/
def c8Post (out : Outside) (req : ReservationReq) (newId : String) (now : Nat)
    (st : Store) (sid rid sessionId : String) : Prop :=
  (req.serviceId = none →
    (handleCreateReservation out req newId now st).resp =
      ⟨400, Body.jsonError "Faltan campos obligatorios."⟩) ∧
  handleGetSlots none st = ⟨400, Body.jsonError "Falta parámetro date"⟩ ∧
  (∀ df : Bool, ∀ b : SlotBody, b.start = none →
    handleAdminCreateSlot df b newId st = (st, ⟨400, Body.jsonError "Falta start."⟩)) ∧
  handleStripeVerify out none = ⟨400, Body.jsonError "Falta sessionId."⟩ ∧
  handleAdminGetReservations true st = ⟨500, Body.jsonError "Error fetching reservations."⟩ ∧
  handleAdminGetSlots true st = ⟨500, Body.jsonError "Error fetching slots."⟩ ∧
  (∀ e, sessionId ≠ "" → out.retrieveSession sessionId = Except.error e →
    handleStripeVerify out (some sessionId) = ⟨500, Body.jsonError "Error interno."⟩) ∧
  (∀ e service slot,
    (strPresent req.serviceId && strPresent req.slotId && strPresent req.customerEmail
      && strPresent req.firstName && strPresent req.lastName && strPresent req.phone) = true →
    findById st.services (req.serviceId.getD "") = some service →
    findById st.slots (req.slotId.getD "") = some slot →
    slot.status = SlotStatus.free →
    out.createCheckoutSession
        { customerEmail := req.customerEmail.getD ""
          unitAmount := service.price * 100
          productName := service.title
          metaReservationId := newId
          metaSlotId := req.slotId.getD "" } = Except.error e →
    (handleCreateReservation out req newId now st).resp =
      ⟨500, Body.jsonError "Error interno."⟩) ∧
  (∀ b : SlotBody, (handleAdminUpdateSlot true sid b st).2 =
    ⟨400, Body.jsonError "Could not update slot."⟩) ∧
  (handleAdminDeleteSlot true sid st).2 = ⟨400, Body.jsonError "Could not delete slot."⟩ ∧
  (handleAdminDeleteReservation true rid st).2 =
    ⟨400, Body.jsonError "No se pudo eliminar la reserva."⟩ ∧
  (∀ b : SlotBody, ∀ ms, b.start = some ms →
    (handleAdminCreateSlot true b newId st).2 = ⟨400, Body.jsonError "Invalid slot data."⟩)

/-! ### Helper lemmas about the association-list store operations -/

theorem findById_updateById {α : Type} (coll : List (String × α)) (id : String)
    (f : α → α) (idq : String) :
    findById (updateById coll id f) idq =
      if idq = id then (findById coll idq).map f else findById coll idq := by
  induction coll with
  | nil => simp [findById, updateById]
  | cons p rest ih =>
    simp only [updateById, List.map_cons] at *
    by_cases hk : p.1 = id
    · by_cases hq : idq = id
      · subst hq
        simp [findById, List.find?_cons, hk]
      · have hne : ¬(p.1 = idq) := fun h => hq (h.symm.trans hk)
        have hne2 : ¬(id = idq) := fun h => hq h.symm
        simpa [findById, List.find?_cons, hk, hne, hne2, hq] using ih
    · by_cases hq2 : p.1 = idq
      · have hne2 : ¬(idq = id) := fun h => hk (hq2.trans h)
        simp [findById, List.find?_cons, hk, hq2, hne2]
      · simpa [findById, List.find?_cons, hk, hq2] using ih

theorem findById_updateById_self {α : Type} (coll : List (String × α)) (id : String)
    (f : α → α) :
    findById (updateById coll id f) id = (findById coll id).map f := by
  simp [findById_updateById]

theorem findById_append_fresh {α : Type} (coll : List (String × α)) (id : String)
    (v : α) (h : findById coll id = none) :
    findById (coll ++ [(id, v)]) id = some v := by
  induction coll with
  | nil => simp [findById]
  | cons p rest ih =>
    simp only [List.cons_append]
    by_cases hk : p.1 = id
    · exfalso
      simp [findById, List.find?_cons, hk] at h
    · have h2 : findById rest id = none := by
        simpa [findById, List.find?_cons, hk] using h
      simpa [findById, List.find?_cons, hk] using ih h2

/-- Whatever branch the webhook handler takes, the slot collection it
returns is either unchanged or the original collection with the metadata
slot set to `booked`. -/
theorem handleStripeWebhook_slots (out : Outside) (req : WebhookReq) (st : Store) :
    (handleStripeWebhook out req st).store.slots = st.slots ∨
    (handleStripeWebhook out req st).store.slots =
      updateById st.slots req.event.session.slotId
        (fun s => { s with status := SlotStatus.booked }) := by
  simp only [handleStripeWebhook]
  repeat' split
  all_goals first | exact Or.inl rfl | exact Or.inr rfl

/-- Whatever branch the reservation-creation handler takes, the slot
collection it returns is either unchanged or the original collection with
the requested slot set to `booked`. -/
theorem handleCreateReservation_slots (out : Outside) (req : ReservationReq)
    (newId : String) (now : Nat) (st : Store) :
    (handleCreateReservation out req newId now st).store.slots = st.slots ∨
    (handleCreateReservation out req newId now st).store.slots =
      updateById st.slots (req.slotId.getD "")
        (fun s => { s with status := SlotStatus.booked }) := by
  simp only [handleCreateReservation]
  repeat' split
  all_goals first | exact Or.inl rfl | exact Or.inr rfl

/-! ### C2 -/

/-- C2: a `POST /api/stripe/webhook` request whose signature does not
verify against the configured signing secret is answered with status 400,
and every Reservation and every Slot in the store is left unchanged (the
whole store is returned as it was). -/
theorem c2_invalid_signature_rejected (out : Outside) (req : WebhookReq) (st : Store)
    (h : req.sigValid = false) :
    handleStripeWebhook out req st =
      { store := st
        resp := some ⟨400, Body.text ("Webhook Error: " ++ req.sigErrMsg)⟩
        trace := [] } := by
  simp [handleStripeWebhook, h]

/-- Witness for C2 at a concrete invalid-signature request. -/
theorem c2_invalid_signature_rejected_witness :
    handleStripeWebhook okOut { sigValid := false, sigErrMsg := "bad sig", event := wEvent }
        wStore =
      { store := wStore
        resp := some ⟨400, Body.text ("Webhook Error: " ++ "bad sig")⟩
        trace := [] } :=
  c2_invalid_signature_rejected okOut
    { sigValid := false, sigErrMsg := "bad sig", event := wEvent } wStore rfl

/-! ### C10 -/

/-- C10: a webhook request whose signature verifies but whose event type
is not `checkout.session.completed` is answered `{received: true}` and the
store is left entirely unchanged. -/
theorem c10_other_event_noop (out : Outside) (req : WebhookReq) (st : Store)
    (hsig : req.sigValid = true)
    (htype : req.event.type ≠ "checkout.session.completed") :
    handleStripeWebhook out req st =
      { store := st, resp := some ⟨200, Body.jsonReceived⟩, trace := [] } := by
  simp [handleStripeWebhook, hsig, htype]
/-- Witness for C10 at a concrete `payment_intent.succeeded` event. -/
theorem c10_other_event_noop_witness :
    handleStripeWebhook okOut wReqOtherType wStore =
      { store := wStore, resp := some ⟨200, Body.jsonReceived⟩, trace := [] } :=
  c10_other_event_noop okOut wReqOtherType wStore rfl (by decide)

/-! ### C1 -/

/-- C1: for a webhook whose signature verifies, whose event type is
`checkout.session.completed`, and whose metadata names an existing
reservation (referencing the metadata slot and an existing service) and an
existing slot, when the calendar call for the slot's start and the
service's duration (inviting customer and mentor) returns a link, the
handler — in order — marks the reservation paid recording the session id,
books the slot, fetches slot and service, creates the meeting, persists
the link on the reservation, refetches the populated reservation and sends
the confirmation email to the customer. -/
theorem c1_webhook_success (out : Outside) (req : WebhookReq) (st : Store)
    (r : Reservation) (s : Slot) (svc : Service) (link : String)
    (hsig : req.sigValid = true)
    (htype : req.event.type = "checkout.session.completed")
    (hr : findById st.reservations req.event.session.reservationId = some r)
    (hs : findById st.slots req.event.session.slotId = some s)
    (hrslot : r.slotId = req.event.session.slotId)
    (hsvc : findById st.services r.serviceId = some svc)
    (hmeet : out.calendarInsert s.start (s.start + svc.duration * 60000)
        ("Reserva: " ++ svc.title) [r.customerEmail, svc.mentorEmail] = Except.ok link) :
    c1Post out req st r s svc link := by
  unfold c1Post
  simp [handleStripeWebhook, createGoogleMeet, findById_updateById,
    hsig, htype, hr, hs, hrslot, hsvc, hmeet]

/-- Witness for C1 at a fully concrete store, request and oracles. -/
theorem c1_webhook_success_witness :
    c1Post okOut wReqOk wStore wRes wSlotFree wService "meet-link" :=
  c1_webhook_success okOut wReqOk wStore wRes wSlotFree wService "meet-link"
    (by decide) (by decide) (by decide) (by decide) (by decide) (by decide) rfl

/-! ### C3 -/

/-- C3: a `POST /api/reservations` request with all six customer fields
present, an existing service and an existing free slot books the slot,
creates a pending reservation referencing service and slot (under a fresh
id), requests a checkout session whose metadata carries the new
reservation's id and the slot's id, and responds with that session's URL
— in that order. -/
theorem c3_create_reservation_success (out : Outside)
    (serviceId slotId email firstName lastName phone newId : String) (now : Nat)
    (st : Store) (service : Service) (slot : Slot) (url : String)
    (h1 : serviceId ≠ "") (h2 : slotId ≠ "") (h3 : email ≠ "")
    (h4 : firstName ≠ "") (h5 : lastName ≠ "") (h6 : phone ≠ "")
    (hsvc : findById st.services serviceId = some service)
    (hslot : findById st.slots slotId = some slot)
    (hfree : slot.status = SlotStatus.free)
    (hfresh : findById st.reservations newId = none)
    (hsess : out.createCheckoutSession
        { customerEmail := email, unitAmount := service.price * 100
          productName := service.title, metaReservationId := newId
          metaSlotId := slotId } = Except.ok url) :
    c3Post out serviceId slotId email firstName lastName phone newId now st
      service slot url := by
  unfold c3Post
  simp [handleCreateReservation, strPresent, h1, h2, h3, h4, h5, h6,
    hsvc, hslot, hfree, hsess, findById_updateById, findById_append_fresh, hfresh]

/-- Witness for C3 at a fully concrete request against `wStore`. -/
theorem c3_create_reservation_success_witness :
    c3Post okOut "svc1" "slot1" "ana@example.com" "Ana" "Diaz" "099123456" "r2" 123
      wStore wService wSlotFree "checkout-url" :=
  c3_create_reservation_success okOut "svc1" "slot1" "ana@example.com" "Ana" "Diaz"
    "099123456" "r2" 123 wStore wService wSlotFree "checkout-url"
    (by decide) (by decide) (by decide) (by decide) (by decide) (by decide)
    (by decide) (by decide) (by decide) (by decide) rfl

/-! ### C4 -/

/-- C4: a `POST /api/reservations` request with a required field missing,
or whose service does not exist, or whose slot does not exist or is not
`free`, is answered 400 with a message, and the store — every slot and
every reservation — is left unchanged. -/
theorem c4_create_reservation_rejected (out : Outside) (req : ReservationReq)
    (newId : String) (now : Nat) (st : Store)
    (h : req.serviceId = none ∨ req.slotId = none ∨ req.customerEmail = none ∨
      req.firstName = none ∨ req.lastName = none ∨ req.phone = none ∨
      findById st.services (req.serviceId.getD "") = none ∨
      findById st.slots (req.slotId.getD "") = none ∨
      ∃ slot, findById st.slots (req.slotId.getD "") = some slot ∧
        slot.status ≠ SlotStatus.free) :
    (handleCreateReservation out req newId now st).store = st ∧
    (handleCreateReservation out req newId now st).resp.status = 400 ∧
    ∃ msg, (handleCreateReservation out req newId now st).resp.body =
      Body.jsonError msg := by
  by_cases hfields : (strPresent req.serviceId && strPresent req.slotId &&
      strPresent req.customerEmail && strPresent req.firstName &&
      strPresent req.lastName && strPresent req.phone) = true
  · rcases h with h | h | h | h | h | h | h | h | ⟨slot, hsl, hnf⟩
    · simp [strPresent, h] at hfields
    · simp [strPresent, h] at hfields
    · simp [strPresent, h] at hfields
    · simp [strPresent, h] at hfields
    · simp [strPresent, h] at hfields
    · simp [strPresent, h] at hfields
    · cases hq : findById st.slots (req.slotId.getD "") with
      | none => simp [handleCreateReservation, hfields, h, hq]
      | some s2 => simp [handleCreateReservation, hfields, h, hq]
    · cases hp : findById st.services (req.serviceId.getD "") with
      | none => simp [handleCreateReservation, hfields, hp]
      | some svc2 => simp [handleCreateReservation, hfields, hp, h]
    · cases hp : findById st.services (req.serviceId.getD "") with
      | none => simp [handleCreateReservation, hfields, hp]
      | some svc2 => simp [handleCreateReservation, hfields, hp, hsl, hnf]
  · simp [handleCreateReservation, hfields]

/-- Witness for C4 at a request with every field missing. -/
theorem c4_create_reservation_rejected_witness :
    (handleCreateReservation okOut ⟨none, none, none, none, none, none⟩ "r9" 0
      wStore).store = wStore ∧
    (handleCreateReservation okOut ⟨none, none, none, none, none, none⟩ "r9" 0
      wStore).resp.status = 400 ∧
    ∃ msg, (handleCreateReservation okOut ⟨none, none, none, none, none, none⟩ "r9" 0
      wStore).resp.body = Body.jsonError msg :=
  c4_create_reservation_rejected okOut ⟨none, none, none, none, none, none⟩ "r9" 0
    wStore (Or.inl rfl)

/-! ### C5 -/

/-- C5 as stated is false at millisecond resolution: the free slot `s1` of
`c5Store` starts at 23:59:59.999 of day 0 — it falls on that date and is
free — yet `GET /api/slots` for day 0 returns the empty list, because the
handler's range ends at `T23:59:59.000`. -/
theorem c5_counterexample :
    onDate 0 86399999 ∧
    findById c5Store.slots "s1" =
      some { serviceId := none, start := 86399999, «end» := none
             status := SlotStatus.free } ∧
    handleGetSlots (some 0) c5Store = ⟨200, Body.jsonSlots []⟩ := by
  decide

/-- C5 amended: `GET /api/slots` with a date returns status 200 with
exactly the free slots whose start lies between `T00:00:00.000` and
`T23:59:59.000` of that date (starts in the last 999 ms of the day are
excluded), sorted ascending by start time. -/
theorem c5_date_query (d : Nat) (st : Store) :
    ∃ res, handleGetSlots (some d) st = ⟨200, Body.jsonSlots res⟩ ∧
      res.Perm (st.slots.filter (fun p =>
        decide (dayStartMs d ≤ p.2.start) && decide (p.2.start ≤ dayEndMs d)
          && (p.2.status == SlotStatus.free))) ∧
      List.Sorted slotStartLe res :=
  ⟨_, rfl, List.perm_insertionSort slotStartLe _, List.sorted_insertionSort slotStartLe _⟩

/-! ### C6 -/

/-- C6 as stated is false: at this concrete paid checkout with the
calendar call failing, the failure is not merely logged — the webhook
handler aborts without completing (no response is sent), even though the
reservation has been marked paid. -/
theorem c6_counterexample :
    (handleStripeWebhook meetFailOut wReqOk wStore).resp = none ∧
    ((findById (handleStripeWebhook meetFailOut wReqOk wStore).store.reservations
      "r1").map Reservation.status) = some ResStatus.paid := by
  decide

/-- C6 amended: an email failure is only logged — the handler completes
normally whatever `sendMail` returns — and nothing is ever rolled back
(the reservation stays paid, the slot booked); but a meeting-link failure
is NOT caught: the handler aborts without sending a response. -/
theorem c6_failure_handling (out : Outside) (req : WebhookReq) (st : Store)
    (r : Reservation) (s : Slot) (svc : Service)
    (hsig : req.sigValid = true)
    (htype : req.event.type = "checkout.session.completed")
    (hr : findById st.reservations req.event.session.reservationId = some r)
    (hs : findById st.slots req.event.session.slotId = some s)
    (hrslot : r.slotId = req.event.session.slotId)
    (hsvc : findById st.services r.serviceId = some svc) :
    c6Post out req st r s svc := by
  unfold c6Post
  refine ⟨fun link hmeet => ?_, fun e hmeet => ?_⟩
  · simp [handleStripeWebhook, createGoogleMeet, findById_updateById,
      hsig, htype, hr, hs, hrslot, hsvc, hmeet]
  · simp [handleStripeWebhook, createGoogleMeet, findById_updateById,
      hsig, htype, hr, hs, hrslot, hsvc, hmeet]

/-- Witness for the amended C6 with a concretely failing SMTP oracle. -/
theorem c6_failure_handling_witness :
    c6Post mailFailOut wReqOk wStore wRes wSlotFree wService :=
  c6_failure_handling mailFailOut wReqOk wStore wRes wSlotFree wService
    (by decide) (by decide) (by decide) (by decide) (by decide) (by decide)

/-! ### C7 -/

/-- C7: a slot whose status is `booked` is never set back to `free` by the
non-admin mutating operations — the webhook handler and reservation
creation.  (Payment verification and the public slot queries are read-only
in this embedding: they take the store and return only a response.) -/
theorem c7_no_booked_to_free (out : Outside) (req : WebhookReq)
    (rreq : ReservationReq) (newId : String) (now : Nat) (st : Store)
    (sid : String) (s : Slot)
    (hs : findById st.slots sid = some s) (hb : s.status = SlotStatus.booked) :
    ((findById (handleStripeWebhook out req st).store.slots sid).map Slot.status =
      some SlotStatus.booked) ∧
    ((findById (handleCreateReservation out rreq newId now st).store.slots sid).map
      Slot.status = some SlotStatus.booked) := by
  constructor
  · rcases handleStripeWebhook_slots out req st with h | h
    · rw [h, hs]; simp [hb]
    · rw [h, findById_updateById]
      split <;> simp [hs, hb]
  · rcases handleCreateReservation_slots out rreq newId now st with h | h
    · rw [h, hs]; simp [hb]
    · rw [h, findById_updateById]
      split <;> simp [hs, hb]

/-- Witness for C7: the booked slot of `wStoreBooked` stays booked through
a webhook for it and a reservation attempt on it. -/
theorem c7_no_booked_to_free_witness :
    ((findById (handleStripeWebhook okOut wReqOk wStoreBooked).store.slots
      "slot1").map Slot.status = some SlotStatus.booked) ∧
    ((findById (handleCreateReservation okOut ⟨some "svc1", some "slot1",
      some "ana@example.com", some "Ana", some "Diaz", some "099123456"⟩ "r2" 0
      wStoreBooked).store.slots "slot1").map Slot.status = some SlotStatus.booked) :=
  c7_no_booked_to_free okOut wReqOk ⟨some "svc1", some "slot1",
    some "ana@example.com", some "Ana", some "Diaz", some "099123456"⟩ "r2" 0
    wStoreBooked "slot1"
    { serviceId := none, start := 1700000000000, «end» := none
      status := SlotStatus.booked }
    (by decide) (by decide)

/-! ### C8 -/

/-- C8 as stated is false: an unexpected failure (the awaited DB call
throwing) in `PUT /api/admin/slots/:slotId` is answered with status 400 —
not a 5xx status. -/
theorem c8_counterexample :
    (handleAdminUpdateSlot true "slot1" ⟨none, none, none, none⟩ wStore).2 =
      ⟨400, Body.jsonError "Could not update slot."⟩ ∧
    (handleAdminUpdateSlot true "slot1" ⟨none, none, none, none⟩ wStore).2.status
      < 500 := by
  decide

/-- C8 amended: validation failures get 400 with a message; unexpected
failures get 500 from the listing, verify and reservation-creation
handlers but 400 from the admin slot create/update/delete and admin
reservation delete handlers. -/
theorem c8_error_statuses (out : Outside) (req : ReservationReq) (newId : String)
    (now : Nat) (st : Store) (sid rid sessionId : String) :
    c8Post out req newId now st sid rid sessionId := by
  unfold c8Post
  refine ⟨?_, ?_, ?_, ?_, ?_, ?_, ?_, ?_, ?_, ?_, ?_, ?_⟩
  · intro h; simp [handleCreateReservation, strPresent, h]
  · simp [handleGetSlots]
  · intro df b hb; simp [handleAdminCreateSlot, hb]
  · simp [handleStripeVerify, strPresent]
  · simp [handleAdminGetReservations]
  · simp [handleAdminGetSlots]
  · intro e hne herr; simp [handleStripeVerify, strPresent, hne, herr]
  · intro e service slot hfields hsvc hslot hfree herr
    simp [handleCreateReservation, hfields, hsvc, hslot, hfree, herr]
  · intro b; simp [handleAdminUpdateSlot]
  · simp [handleAdminDeleteSlot]
  · simp [handleAdminDeleteReservation]
  · intro b ms hb; simp [handleAdminCreateSlot, hb]

/-- Witness for the amended C8 at concrete arguments. -/
theorem c8_error_statuses_witness :
    c8Post okOut ⟨none, none, none, none, none, none⟩ "r9" 0 wStore "slot1" "r1"
      "sess1" :=
  c8_error_statuses okOut ⟨none, none, none, none, none, none⟩ "r9" 0 wStore
    "slot1" "r1" "sess1"

/-! ### C9 -/

/-- C9: `POST /api/admin/slots` with a `start` creates a slot that is
always `free` with no service reference and no end time — any `status`,
`serviceId` or `end` in the body is ignored — and with `start` missing it
responds 400 and creates nothing. -/
theorem c9_admin_create_slot_shape (body : SlotBody) (newId : String) (st : Store) :
    (∀ ms, body.start = some ms →
      handleAdminCreateSlot false body newId st =
        ({ st with slots := (st.slots ++ [(newId,
            { serviceId := none, start := ms, «end» := none
              status := SlotStatus.free })]) },
          ⟨201, Body.jsonSlot (some { serviceId := none, start := ms, «end» := none
                                      status := SlotStatus.free })⟩)) ∧
    (body.start = none →
      handleAdminCreateSlot false body newId st =
        (st, ⟨400, Body.jsonError "Falta start."⟩)) := by
  constructor
  · intro ms hms; simp [handleAdminCreateSlot, hms]
  · intro hnone; simp [handleAdminCreateSlot, hnone]

/-- Witness for C9: a body supplying `status: booked`, a `serviceId` and
an `end` still yields a `free` slot with neither. -/
theorem c9_admin_create_slot_shape_witness :
    handleAdminCreateSlot false
        { start := some 1700000000000, serviceId := some "svc1"
          «end» := some 1700003600000, status := some SlotStatus.booked } "s2" wStore =
      ({ wStore with slots := (wStore.slots ++ [("s2",
          { serviceId := none, start := 1700000000000, «end» := none
            status := SlotStatus.free })]) },
        ⟨201, Body.jsonSlot (some { serviceId := none, start := 1700000000000
                                    «end» := none, status := SlotStatus.free })⟩) :=
  (c9_admin_create_slot_shape
    { start := some 1700000000000, serviceId := some "svc1"
      «end» := some 1700003600000, status := some SlotStatus.booked } "s2" wStore).1
    1700000000000 rfl

end BookingServer
